import Mathlib

/-!
# Fuel Tracker Israel — verification of the price-update-and-alert pipeline

Shallow embedding of the backend of the Fuel_Tracker_Israel repository:
the Price Mutator and Alert Evaluator (`server/cron/scheduler.js`), the
station routes (`server/routes/stations.js`) and the user favorites/alerts
routes (`server/routes/users.js`).

Modelling conventions:
* Prices are exact rationals (`ℚ`); timestamps are integers (`ℤ`,
  milliseconds since the epoch, as JavaScript `Date.now()`).
* A fuel slot of a station is `Option Fuel`: `none` when the fuel type is
  absent from the document.  JavaScript tests a price for truthiness
  (`station.fuelTypes.gasoline95?.price`), so a slot participates in an
  operation exactly when it is `some` and its price is nonzero; this
  truthiness guard is embedded explicitly wherever the source tests it.
* Asynchronous persistence is modelled by returning the list of documents
  passed to `save()`, in order; outbound mail is modelled by a `transport`
  function that may fail, mirroring `transporter.sendMail`.
* Fields of the Mongoose schemas not touched by any verified property
  (coordinates, opening hours, services, credential hashes, phone) are
  omitted from the embedded records.
-/

/-- One fuel entry of a station document: `{ price, lastUpdated }`
(`server/models/Station.js`). -/
structure Fuel where
  price : ℚ
  lastUpdated : ℤ
deriving Repr, DecidableEq, Inhabited

/-- The `fuelTypes` sub-document of a station: the three fixed fuel keys,
each optionally present (`server/models/Station.js`). -/
structure FuelTypes where
  gasoline95 : Option Fuel
  gasoline98 : Option Fuel
  diesel : Option Fuel
deriving Repr, DecidableEq, Inhabited

/-- The fixed set of fuel-type keys accepted by the API
(`isIn(['gasoline95', 'gasoline98', 'diesel'])`). -/
inductive FuelType where
  | gasoline95
  | gasoline98
  | diesel
deriving Repr, DecidableEq

/-- Dynamic field access `station.fuelTypes[fuelType]` for a fixed key. -/
def FuelTypes.get (ft : FuelTypes) : FuelType → Option Fuel
  | FuelType.gasoline95 => ft.gasoline95
  | FuelType.gasoline98 => ft.gasoline98
  | FuelType.diesel => ft.diesel

/-- A station document (`server/models/Station.js`): identity, descriptive
fields, fuel prices, active flag and the scrape timestamp. -/
structure Station where
  id : ℕ
  name : String
  address : String
  city : String
  brand : String
  fuelTypes : FuelTypes
  isActive : Bool
  lastScraped : ℤ
deriving Repr, DecidableEq, Inhabited

/-! ## Price Mutator (`scrapeFuelPrices`, `server/cron/scheduler.js` 90–114)

For each active station one perturbation `variation` is drawn
(`(Math.random() - 0.5) * 0.20`); for each fuel slot whose price is truthy
the price becomes `Math.max(floor, price + variation)` and `lastUpdated`
is stamped; finally `lastScraped` is stamped and the station saved. -/

/-- One fuel slot under the Price Mutator: the source guards with
`station.fuelTypes.<ft>?.price` (truthy: present and nonzero), then clamps
`price + v` to the floor `fl` and stamps `lastUpdated` with the pass time. -/
def mutFuel (fl : ℚ) (now : ℤ) (v : ℚ) : Option Fuel → Option Fuel
  | none => none
  | some x => if x.price ≠ 0 then some ⟨max fl (x.price + v), now⟩ else some x

/-- The Price Mutator applied to one station: floors 6.0 / 6.2 / 5.8 for
gasoline95 / gasoline98 / diesel, then `lastScraped = new Date()`. -/
def scrapeStation (now : ℤ) (v : ℚ) (s : Station) : Station :=
  { s with
    fuelTypes :=
      ⟨mutFuel 6 now v s.fuelTypes.gasoline95,
       mutFuel (31/5) now v s.fuelTypes.gasoline98,
       mutFuel (29/5) now v s.fuelTypes.diesel⟩,
    lastScraped := now }

/-- The station loop of `scrapeFuelPrices`, with `draw i` the random
variation for the `i`-th station.  Only active stations are read and
rewritten (`Station.find({ isActive: true })` followed by per-station
`save()`); an inactive station's document is untouched. -/
def scrapeList (now : ℤ) (draw : ℕ → ℚ) : ℕ → List Station → List Station
  | _, [] => []
  | i, s :: rest =>
      (if s.isActive then scrapeStation now (draw i) s else s) ::
        scrapeList now draw (i + 1) rest

/-- One Price Mutator pass over the station store. -/
def scrapeFuelPrices (now : ℤ) (draw : ℕ → ℚ) (stations : List Station) :
    List Station :=
  scrapeList now draw 0 stations

/-- The pass relates input and output stations pointwise; an active station
is rewritten by `scrapeStation` with some draw, an inactive one is kept. -/
theorem scrapeList_forall₂ (now : ℤ) (draw : ℕ → ℚ)
    (R : Station → Station → Prop)
    (hact : ∀ s i, s.isActive = true → R s (scrapeStation now (draw i) s))
    (hinact : ∀ s, s.isActive = false → R s s) :
    ∀ (i : ℕ) (l : List Station), List.Forall₂ R l (scrapeList now draw i l)
  | _, [] => List.Forall₂.nil
  | i, s :: rest => by
      cases hA : s.isActive with
      | true =>
          simpa [scrapeList, hA] using
            List.Forall₂.cons (hact s i hA)
              (scrapeList_forall₂ now draw R hact hinact (i + 1) rest)
      | false =>
          simpa [scrapeList, hA] using
            List.Forall₂.cons (hinact s hA)
              (scrapeList_forall₂ now draw R hact hinact (i + 1) rest)

/-- A pre/post pair of fuel slots keeps the floor `fl`: any present price
already at or above the floor stays at or above it. -/
def floorKept (fl : ℚ) (pre post : Option Fuel) : Prop :=
  ∀ x : Fuel, pre = some x → fl ≤ x.price →
    ∃ y : Fuel, post = some y ∧ fl ≤ y.price

theorem mutFuel_floorKept (fl : ℚ) (now : ℤ) (v : ℚ) (pre : Option Fuel)
    (hfl : 0 < fl) : floorKept fl pre (mutFuel fl now v pre) := by
  intro x hx hge
  subst hx
  have hnz : x.price ≠ 0 := by
    intro h0
    exact absurd hge (by simp [h0, not_le, hfl])
  exact ⟨⟨max fl (x.price + v), now⟩, by simp [mutFuel, hnz], le_max_left _ _⟩

/-- **C1.** For every active station, any fuel price that is present and at
or above its per-fuel floor (6.0 / 6.2 / 5.8) is still at or above that
floor after one Price Mutator pass, for every value of the perturbation
draw. -/
theorem scrape_floor_invariant (now : ℤ) (draw : ℕ → ℚ)
    (stations : List Station) :
    List.Forall₂ (fun s t => s.isActive = true →
        floorKept 6 s.fuelTypes.gasoline95 t.fuelTypes.gasoline95 ∧
        floorKept (31/5) s.fuelTypes.gasoline98 t.fuelTypes.gasoline98 ∧
        floorKept (29/5) s.fuelTypes.diesel t.fuelTypes.diesel)
      stations (scrapeFuelPrices now draw stations) := by
  apply scrapeList_forall₂
  · intro s i _
    refine fun _ => ⟨?_, ?_, ?_⟩ <;>
      exact mutFuel_floorKept _ now (draw i) _ (by norm_num)
  · intro s hs
    intro h
    exact absurd h (by simp [hs])

/-- A sample station (the seeded `Paz Tel Aviv Center`, with prices 6.89 /
7.15 / 6.45 and timestamps at 0), used to instantiate the theorems. -/
def demoStation : Station :=
  { id := 0
    name := "Paz Tel Aviv Center"
    address := "Rothschild Blvd 45, Tel Aviv"
    city := "Tel Aviv"
    brand := "Paz"
    fuelTypes :=
      ⟨some ⟨689/100, 0⟩, some ⟨143/20, 0⟩, some ⟨129/20, 0⟩⟩
    isActive := true
    lastScraped := 0 }

/-- Witness for C1: the sample station, hit with the extreme downward draw
−1, still has its gasoline95 price at or above the 6.0 floor after one
pass. -/
theorem scrape_floor_invariant_witness :
    ∃ y : Fuel,
      ((scrapeFuelPrices 1 (fun _ => -1) [demoStation]).headI).fuelTypes.gasoline95
          = some y ∧ 6 ≤ y.price := by
  have h := scrape_floor_invariant 1 (fun _ => -1) [demoStation]
  cases h with
  | cons h1 h2 =>
      obtain ⟨y, hy, hyp⟩ := (h1 rfl).1 ⟨689/100, 0⟩ rfl (by norm_num)
      exact ⟨y, hy, hyp⟩

/-- A pre/post pair of fuel slots is rewritten with the shared delta `d`
and floor `fl`: a present, truthy price becomes `max fl (price + d)`. -/
def sharedDelta (fl d : ℚ) (pre post : Option Fuel) : Prop :=
  ∀ x : Fuel, pre = some x → x.price ≠ 0 →
    ∃ y : Fuel, post = some y ∧ y.price = max fl (x.price + d)

theorem mutFuel_sharedDelta (fl : ℚ) (now : ℤ) (v : ℚ) (pre : Option Fuel) :
    sharedDelta fl v pre (mutFuel fl now v pre) := by
  intro x hx hnz
  subst hx
  exact ⟨⟨max fl (x.price + v), now⟩, by simp [mutFuel, hnz], rfl⟩

/-- **C4.** In one Price Mutator pass each active station is rewritten with
a single perturbation value shared by all of its present fuel prices: there
is one `d` such that every present (truthy) price becomes
`max floor (price + d)`, the same `d` across gasoline95, gasoline98 and
diesel. -/
theorem scrape_shared_delta (now : ℤ) (draw : ℕ → ℚ)
    (stations : List Station) :
    List.Forall₂ (fun s t => s.isActive = true → ∃ d : ℚ,
        sharedDelta 6 d s.fuelTypes.gasoline95 t.fuelTypes.gasoline95 ∧
        sharedDelta (31/5) d s.fuelTypes.gasoline98 t.fuelTypes.gasoline98 ∧
        sharedDelta (29/5) d s.fuelTypes.diesel t.fuelTypes.diesel)
      stations (scrapeFuelPrices now draw stations) := by
  apply scrapeList_forall₂
  · intro s i _
    exact fun _ => ⟨draw i,
      mutFuel_sharedDelta 6 now (draw i) _,
      mutFuel_sharedDelta (31/5) now (draw i) _,
      mutFuel_sharedDelta (29/5) now (draw i) _⟩
  · intro s hs h
    exact absurd h (by simp [hs])

/-- Witness for C4: on the sample station both the gasoline95 and the
diesel post-pass prices are produced from one and the same delta. -/
theorem scrape_shared_delta_witness :
    ∃ (d : ℚ) (y z : Fuel),
      ((scrapeFuelPrices 1 (fun _ => 1/10) [demoStation]).headI).fuelTypes.gasoline95
          = some y ∧ y.price = max 6 (689/100 + d) ∧
      ((scrapeFuelPrices 1 (fun _ => 1/10) [demoStation]).headI).fuelTypes.diesel
          = some z ∧ z.price = max (29/5) (129/20 + d) := by
  have h := scrape_shared_delta 1 (fun _ => 1/10) [demoStation]
  cases h with
  | cons h1 h2 =>
      obtain ⟨d, h95, _, hdl⟩ := h1 rfl
      obtain ⟨y, hy, hyp⟩ := h95 ⟨689/100, 0⟩ rfl (by norm_num)
      obtain ⟨z, hz, hzp⟩ := hdl ⟨129/20, 0⟩ rfl (by norm_num)
      exact ⟨d, y, z, hy, hyp, hz, hzp⟩

/-- A pre/post pair of fuel slots got a fresh `lastUpdated` stamp: a
present, truthy entry whose stored stamp precedes the pass time comes out
with a strictly larger stamp. -/
def stamped (now : ℤ) (pre post : Option Fuel) : Prop :=
  ∀ x : Fuel, pre = some x → x.price ≠ 0 → x.lastUpdated < now →
    ∃ y : Fuel, post = some y ∧ x.lastUpdated < y.lastUpdated

theorem mutFuel_stamped (fl : ℚ) (now : ℤ) (v : ℚ) (pre : Option Fuel) :
    stamped now pre (mutFuel fl now v pre) := by
  intro x hx hnz hlt
  subst hx
  exact ⟨⟨max fl (x.price + v), now⟩, by simp [mutFuel, hnz], hlt⟩

/-- **C9.** After one Price Mutator pass, for every active station each
present (truthy-priced) fuel slot's `lastUpdated` and the station's
`lastScraped` are strictly greater than their pre-pass values, provided
the pass time is strictly later than those pre-pass stamps (the pass
writes `new Date()` into every stamp it touches). -/
theorem scrape_stamps_advance (now : ℤ) (draw : ℕ → ℚ)
    (stations : List Station) :
    List.Forall₂ (fun s t => s.isActive = true →
        stamped now s.fuelTypes.gasoline95 t.fuelTypes.gasoline95 ∧
        stamped now s.fuelTypes.gasoline98 t.fuelTypes.gasoline98 ∧
        stamped now s.fuelTypes.diesel t.fuelTypes.diesel ∧
        (s.lastScraped < now → s.lastScraped < t.lastScraped))
      stations (scrapeFuelPrices now draw stations) := by
  apply scrapeList_forall₂
  · intro s i _
    exact fun _ =>
      ⟨mutFuel_stamped 6 now (draw i) _,
       mutFuel_stamped (31/5) now (draw i) _,
       mutFuel_stamped (29/5) now (draw i) _,
       fun h => h⟩
  · intro s hs h
    exact absurd h (by simp [hs])

/-- Witness for C9: on the sample station (all stamps at 0) a pass at time
1 strictly advances the gasoline95 `lastUpdated` and the `lastScraped`. -/
theorem scrape_stamps_advance_witness :
    (∃ y : Fuel,
      ((scrapeFuelPrices 1 (fun _ => 0) [demoStation]).headI).fuelTypes.gasoline95
          = some y ∧ (0 : ℤ) < y.lastUpdated) ∧
    (0 : ℤ) < ((scrapeFuelPrices 1 (fun _ => 0) [demoStation]).headI).lastScraped := by
  have h := scrape_stamps_advance 1 (fun _ => 0) [demoStation]
  cases h with
  | cons h1 h2 =>
      obtain ⟨h95, _, _, hsc⟩ := h1 rfl
      obtain ⟨y, hy, hyp⟩ := h95 ⟨689/100, 0⟩ rfl (by norm_num) (by norm_num)
      exact ⟨⟨y, hy, hyp⟩, hsc (by norm_num [demoStation])⟩

/-! ## Alert Evaluator (`checkPriceAlerts`, `server/cron/scheduler.js`
127–177) and Notifier (`sendPriceAlertEmail`, 180–216)

`checkPriceAlerts` queries users having an active alert and email
notifications enabled, with `priceAlerts.stationId` populated; per user it
collects triggered alerts, then (if any) sends one email and saves the
user.  After the loop it evaluates `triggeredAlerts.length` — a name that
is block-scoped to the loop body — and the resulting `ReferenceError` is
swallowed by the function's own `catch`. -/

/-- `24 * 60 * 60 * 1000` milliseconds (line 146). -/
def oneDayMs : ℤ := 24 * 60 * 60 * 1000

/-- One entry pushed onto `triggeredAlerts` (lines 149–155). -/
structure TriggeredAlert where
  stationName : String
  stationAddress : String
  fuelType : FuelType
  currentPrice : ℚ
  targetPrice : ℚ
deriving Repr, DecidableEq

/-- A price-alert subdocument as the evaluator sees it after
`populate('priceAlerts.stationId')`: `stationId` holds the station
document, or `none` when the reference no longer resolves. -/
structure PAlert where
  isActive : Bool
  stationId : Option Station
  fuelType : FuelType
  targetPrice : ℚ
  lastTriggered : Option ℤ
deriving Repr, DecidableEq

/-- A user document as the evaluator reads it. -/
structure PUser where
  email : String
  firstName : String
  emailNotifications : Bool
  priceAlerts : List PAlert
deriving Repr, DecidableEq

/-- An outbound mail: recipient and the triggered alerts it lists. -/
structure Mail where
  recipient : String
  alerts : List TriggeredAlert
deriving Repr, DecidableEq

/-- Errors of the embedded runtime: a JavaScript `ReferenceError`, or a
failure from the mail transport. -/
inductive JsError where
  | referenceError (name : String)
  | mailError (msg : String)
deriving Repr, DecidableEq

/-- The body of the per-alert loop (lines 137–161): skip inactive or
unresolved alerts; read `currentPrice`; on a truthy price at or below
target and outside the 24-hour window, emit a batch entry and set
`lastTriggered = new Date()`; otherwise leave the alert untouched. -/
def processAlert (now : ℤ) (a : PAlert) : Option TriggeredAlert × PAlert :=
  if !a.isActive then (none, a)
  else
    match a.stationId with
    | none => (none, a)
    | some station =>
      match station.fuelTypes.get a.fuelType with
      | none => (none, a)
      | some f =>
        if f.price ≠ 0 ∧ f.price ≤ a.targetPrice then
          match a.lastTriggered with
          | none =>
              (some ⟨station.name, station.address, a.fuelType, f.price,
                     a.targetPrice⟩,
               { a with lastTriggered := some now })
          | some lt =>
              if lt < now - oneDayMs then
                (some ⟨station.name, station.address, a.fuelType, f.price,
                       a.targetPrice⟩,
                 { a with lastTriggered := some now })
              else (none, a)
        else (none, a)

/-- The alert loop over one user's alert list: the collected batch and the
(possibly re-stamped) alerts. -/
def processAlerts (now : ℤ) : List PAlert → List TriggeredAlert × List PAlert
  | [] => ([], [])
  | a :: rest =>
      let r := processAlert now a
      let rs := processAlerts now rest
      (r.1.toList ++ rs.1, r.2 :: rs.2)

/-- One user through the alert loop. -/
def processUser (now : ℤ) (u : PUser) : List TriggeredAlert × PUser :=
  let r := processAlerts now u.priceAlerts
  (r.1, { u with priceAlerts := r.2 })

/-- The evaluator's user query (lines 129–132): at least one active alert
and email notifications enabled. -/
def userSelected (u : PUser) : Bool :=
  u.priceAlerts.any (fun a => a.isActive) && u.emailNotifications

/-- The Notifier (lines 180–216): builds the mail from the user's address
and the batch and hands it to the transport; any transport failure is
caught and logged inside (lines 213–215), so the function always returns
normally. -/
def sendPriceAlertEmail (transport : Mail → Except JsError Unit)
    (u : PUser) (alerts : List TriggeredAlert) : Except JsError Unit :=
  match transport ⟨u.email, alerts⟩ with
  | Except.ok _ => Except.ok ()
  | Except.error _ => Except.ok ()

/-- The per-user loop of the evaluator (lines 134–168): effects are the
mails attempted and the users saved, in order; an uncaught error would
abort the rest of the loop (saves after an aborting send do not happen). -/
def runUsers (now : ℤ) (transport : Mail → Except JsError Unit) :
    List PUser → List Mail × List PUser × Except JsError Unit
  | [] => ([], [], Except.ok ())
  | u :: rest =>
      let r := processUser now u
      if r.1.isEmpty then runUsers now transport rest
      else
        match sendPriceAlertEmail transport u r.1 with
        | Except.error e => ([⟨u.email, r.1⟩], [], Except.error e)
        | Except.ok _ =>
            let rs := runUsers now transport rest
            (⟨u.email, r.1⟩ :: rs.1, r.2 :: rs.2.1, rs.2.2)

/-- Line 170: `if (triggeredAlerts.length > 0)` after the user loop.  The
`triggeredAlerts` binding is a `const` declared inside the loop body (line
135) and is not in scope here, so evaluating the name throws a
`ReferenceError`. -/
def summaryStep : Except JsError Unit :=
  Except.error (JsError.referenceError "triggeredAlerts")

/-- `checkPriceAlerts` up to its own catch: query, user loop, then the
post-loop summary; the third component is the error state reaching the
catch at line 174. -/
def checkPriceAlertsRun (now : ℤ) (transport : Mail → Except JsError Unit)
    (allUsers : List PUser) : List Mail × List PUser × Except JsError Unit :=
  let r := runUsers now transport (allUsers.filter userSelected)
  match r.2.2 with
  | Except.error e => (r.1, r.2.1, Except.error e)
  | Except.ok _ =>
      match summaryStep with
      | Except.error e => (r.1, r.2.1, Except.error e)
      | Except.ok _ => (r.1, r.2.1, Except.ok ())

/-- `checkPriceAlerts` as its caller observes it: the catch logs any error
and the function resolves normally, leaving only the mails attempted and
the users saved. -/
def checkPriceAlerts (now : ℤ) (transport : Mail → Except JsError Unit)
    (allUsers : List PUser) : List Mail × List PUser :=
  let r := checkPriceAlertsRun now transport allUsers
  (r.1, r.2.1)

/-- The Notifier never propagates a transport failure. -/
theorem sendPriceAlertEmail_ok (transport : Mail → Except JsError Unit)
    (u : PUser) (alerts : List TriggeredAlert) :
    sendPriceAlertEmail transport u alerts = Except.ok () := by
  unfold sendPriceAlertEmail
  cases transport ⟨u.email, alerts⟩ <;> rfl

/-- The user loop itself never ends in an error state. -/
theorem runUsers_ok (now : ℤ) (transport : Mail → Except JsError Unit) :
    ∀ users : List PUser, (runUsers now transport users).2.2 = Except.ok ()
  | [] => rfl
  | u :: rest => by
      have ih := runUsers_ok now transport rest
      simp only [runUsers, sendPriceAlertEmail_ok]
      split
      · exact ih
      · exact ih

/-- The triggering branch of the per-alert loop: an active alert whose
station resolves, whose fuel entry has a truthy price at or below target,
and whose `lastTriggered` (if any) is older than 24 hours, emits exactly
its batch entry and is re-stamped to `now`. -/
theorem processAlert_triggers (now : ℤ) (a : PAlert) (st : Station) (f : Fuel)
    (hact : a.isActive = true) (hst : a.stationId = some st)
    (hf : st.fuelTypes.get a.fuelType = some f)
    (hnz : f.price ≠ 0) (hle : f.price ≤ a.targetPrice)
    (hwin : ∀ lt : ℤ, a.lastTriggered = some lt → lt < now - oneDayMs) :
    processAlert now a =
      (some ⟨st.name, st.address, a.fuelType, f.price, a.targetPrice⟩,
       { a with lastTriggered := some now }) := by
  cases hlt : a.lastTriggered with
  | none => simp [processAlert, hact, hst, hf, hnz, hle, hlt]
  | some lt => simp [processAlert, hact, hst, hf, hnz, hle, hlt, hwin lt hlt]

/-- The station of the worked end-to-end scenario: diesel at 6.20. -/
def demoAlertStation : Station :=
  { id := 1
    name := "Sonol Jerusalem"
    address := "King George St 15, Jerusalem"
    city := "Jerusalem"
    brand := "Sonol"
    fuelTypes := ⟨none, none, some ⟨31/5, 0⟩⟩
    isActive := true
    lastScraped := 0 }

/-- The scenario alert: diesel, target 6.30, never triggered. -/
def demoAlert : PAlert :=
  { isActive := true
    stationId := some demoAlertStation
    fuelType := FuelType.diesel
    targetPrice := 63/10
    lastTriggered := none }

/-- The scenario user, with email notifications enabled. -/
def demoUser : PUser :=
  { email := "u@example.com"
    firstName := "U"
    emailNotifications := true
    priceAlerts := [demoAlert] }

/-- **C2 (amended).** For any user and any active alert whose station
resolves: if the station's current price for the alert's fuel type is
*nonzero* (truthy — the source guards `if (currentPrice && ...)`, so a
price of exactly 0 is skipped) and at or below the target, and the alert
was never triggered or last triggered more than 24 hours before now, then
the alert joins the batch and its `lastTriggered` is set to now; and in
the worked scenario (target 6.30, never triggered, diesel at 6.20) the
pass attempts exactly one mail for the user, carrying that one entry, and
saves the user with `lastTriggered = now`. -/
theorem alert_trigger_and_notify :
    (∀ (now : ℤ) (a : PAlert) (st : Station) (f : Fuel),
        a.isActive = true → a.stationId = some st →
        st.fuelTypes.get a.fuelType = some f →
        f.price ≠ 0 → f.price ≤ a.targetPrice →
        (∀ lt : ℤ, a.lastTriggered = some lt → lt < now - oneDayMs) →
        processAlert now a =
          (some ⟨st.name, st.address, a.fuelType, f.price, a.targetPrice⟩,
           { a with lastTriggered := some now })) ∧
    checkPriceAlerts 1000 (fun _ => Except.ok ()) [demoUser] =
      ([⟨"u@example.com",
         [⟨"Sonol Jerusalem", "King George St 15, Jerusalem",
           FuelType.diesel, 31/5, 63/10⟩]⟩],
       [{ demoUser with
            priceAlerts := [{ demoAlert with lastTriggered := some 1000 }] }]) := by
  refine ⟨processAlert_triggers, ?_⟩
  have h1 := processAlert_triggers 1000 demoAlert demoAlertStation ⟨31/5, 0⟩
      rfl rfl rfl (by norm_num) (by norm_num [demoAlert, demoAlertStation])
      (fun lt h => Option.noConfusion h)
  simp only [checkPriceAlerts, checkPriceAlertsRun, runUsers, userSelected,
    processUser, processAlerts, h1, sendPriceAlertEmail_ok, summaryStep]
  simp [demoUser, demoAlert, demoAlertStation]

/-- Witness for C2 (amended): the scenario alert at time 1000, with every
hypothesis discharged concretely. -/
theorem alert_trigger_and_notify_witness :
    processAlert 1000 demoAlert =
      (some ⟨"Sonol Jerusalem", "King George St 15, Jerusalem",
             FuelType.diesel, 31/5, 63/10⟩,
       { demoAlert with lastTriggered := some 1000 }) :=
  alert_trigger_and_notify.1 1000 demoAlert demoAlertStation ⟨31/5, 0⟩
    rfl rfl rfl (by norm_num) (by norm_num [demoAlert, demoAlertStation])
    (fun lt h => Option.noConfusion h)

/-- A station whose diesel price is exactly 0 (a value the Station schema
admits: `price: Number`). -/
def zeroPriceStation : Station :=
  { id := 2
    name := "Zero Fuel"
    address := "Nowhere 1"
    city := "Nowhere"
    brand := "Other"
    fuelTypes := ⟨none, none, some ⟨0, 0⟩⟩
    isActive := true
    lastScraped := 0 }

/-- An active, never-triggered alert on that station. -/
def zeroPriceAlert : PAlert :=
  { isActive := true
    stationId := some zeroPriceStation
    fuelType := FuelType.diesel
    targetPrice := 63/10
    lastTriggered := none }

/-- Counterexample to C2 as stated: an active, never-triggered alert whose
station's diesel price is 0 — which is ≤ the target 6.30 — produces no
batch entry and keeps `lastTriggered` unchanged, because line 143 guards
on `currentPrice &&` and the number 0 is falsy in JavaScript. -/
theorem alert_trigger_counterexample :
    zeroPriceAlert.isActive = true ∧
    zeroPriceStation.fuelTypes.get zeroPriceAlert.fuelType = some ⟨0, 0⟩ ∧
    (0 : ℚ) ≤ zeroPriceAlert.targetPrice ∧
    zeroPriceAlert.lastTriggered = none ∧
    processAlert 1000 zeroPriceAlert = (none, zeroPriceAlert) :=
  ⟨rfl, rfl, by norm_num [zeroPriceAlert], rfl, rfl⟩

/-- **C3.** An alert whose `lastTriggered` is less than 24 hours before
the evaluation time produces no batch entry on this pass and is returned
with `lastTriggered` unchanged, whatever the current price. -/
theorem alert_suppression_window (now : ℤ) (a : PAlert) (lt : ℤ)
    (hlt : a.lastTriggered = some lt) (hrecent : now - oneDayMs < lt) :
    processAlert now a = (none, a) := by
  have hnot : ¬ lt < now - oneDayMs := not_lt.mpr hrecent.le
  cases hact : a.isActive with
  | false => simp [processAlert, hact]
  | true =>
      cases hst : a.stationId with
      | none => simp [processAlert, hact, hst]
      | some st =>
          cases hf : st.fuelTypes.get a.fuelType with
          | none => simp [processAlert, hact, hst, hf]
          | some f =>
              by_cases hc : f.price ≠ 0 ∧ f.price ≤ a.targetPrice
              · simp [processAlert, hact, hst, hf, hc, hlt, hnot]
              · simp [processAlert, hact, hst, hf, hc, hlt]

/-- A scenario alert for C3: diesel at 6.20 still at or below the target
6.30, but last triggered 999 999 999, shortly before the pass time. -/
def suppressedAlert : PAlert :=
  { isActive := true
    stationId := some demoAlertStation
    fuelType := FuelType.diesel
    targetPrice := 63/10
    lastTriggered := some 999999999 }

/-- Witness for C3: at pass time 10^9 the recently-triggered alert yields
no entry and is unchanged, although its station's price meets the
threshold. -/
theorem alert_suppression_window_witness :
    processAlert 1000000000 suppressedAlert = (none, suppressedAlert) :=
  alert_suppression_window 1000000000 suppressedAlert 999999999 rfl
    (by norm_num [oneDayMs])

/-- The per-user loop does not depend on the outcomes of the mail
transport. -/
theorem runUsers_transport (now : ℤ)
    (t₁ t₂ : Mail → Except JsError Unit) :
    ∀ users : List PUser, runUsers now t₁ users = runUsers now t₂ users
  | [] => rfl
  | u :: rest => by
      have ih := runUsers_transport now t₁ t₂ rest
      simp only [runUsers, sendPriceAlertEmail_ok]
      split
      · exact ih
      · rw [ih]

/-- **C8.** A failing mail transport is caught inside the Notifier (it
always returns normally), and the evaluator's observable effects — the
mails attempted and, in particular, the users saved with their updated
`lastTriggered` stamps — are identical to those under a transport that
always succeeds: a mail failure never prevents the `lastTriggered`
updates from being persisted. -/
theorem mail_failure_no_rollback (now : ℤ) (users : List PUser)
    (failing : Mail → Except JsError Unit) :
    (∀ (u : PUser) (alerts : List TriggeredAlert),
        sendPriceAlertEmail failing u alerts = Except.ok ()) ∧
    checkPriceAlerts now failing users =
      checkPriceAlerts now (fun _ => Except.ok ()) users :=
  ⟨fun u alerts => sendPriceAlertEmail_ok failing u alerts, by
    unfold checkPriceAlerts checkPriceAlertsRun
    rw [runUsers_transport now failing (fun _ => Except.ok ())]⟩

/-- **C10.** Every run of `checkPriceAlerts` whose user loop completes then
raises `ReferenceError` on `triggeredAlerts` (the post-loop summary at line
170 reads a `const` scoped to the loop body); the error reaches only the
function's own catch — the caller observes a normal return — and it occurs
after the whole loop, so the mails attempted and the users saved are
exactly those of the completed loop. -/
theorem checkPriceAlerts_reference_error (now : ℤ)
    (transport : Mail → Except JsError Unit) (users : List PUser) :
    (checkPriceAlertsRun now transport users).2.2
        = Except.error (JsError.referenceError "triggeredAlerts") ∧
    (checkPriceAlertsRun now transport users).1
        = (runUsers now transport (users.filter userSelected)).1 ∧
    (checkPriceAlertsRun now transport users).2.1
        = (runUsers now transport (users.filter userSelected)).2.1 ∧
    checkPriceAlerts now transport users
        = ((runUsers now transport (users.filter userSelected)).1,
           (runUsers now transport (users.filter userSelected)).2.1) := by
  have h := runUsers_ok now transport (users.filter userSelected)
  refine ⟨?_, ?_, ?_, ?_⟩ <;>
    simp [checkPriceAlerts, checkPriceAlertsRun, summaryStep, h]

/-! ## HTTP routes (`server/routes/users.js`, `server/routes/stations.js`)

Each handler is embedded as a function from the authenticated user's
document (and, where consulted, the station store) to the HTTP status code
and the persisted result.  Typed inputs make the `express-validator`
checks vacuous, so only the post-validation logic appears. -/

/-- A price-alert subdocument as stored on the user (`priceAlerts` in the
User schema, as read and written by `server/routes/users.js`): subdocument
`_id`, raw station reference, fuel type, target price, active flag,
last-triggered stamp. -/
structure StoredAlert where
  id : ℕ
  stationId : ℕ
  fuelType : FuelType
  targetPrice : ℚ
  isActive : Bool
  lastTriggered : Option ℤ
deriving Repr, DecidableEq

/-- A user document as the routes read it. -/
structure UserDoc where
  email : String
  favoriteStations : List ℕ
  priceAlerts : List StoredAlert
deriving Repr, DecidableEq

/-- `Station.findById(stationId)` against the station store. -/
def findStation (stations : List Station) (sid : ℕ) : Option Station :=
  stations.find? (fun s => s.id == sid)

/-- `DELETE /api/users/alerts/:alertId` (users.js 182–201): keep every
alert whose `_id` differs, save, respond `res.json(...)` — status 200;
there is no lookup and no 404 branch. -/
def deleteAlert (u : UserDoc) (alertId : ℕ) : ℕ × UserDoc :=
  (200, { u with priceAlerts := u.priceAlerts.filter (fun a => a.id != alertId) })

/-- `PUT /api/users/alerts/:alertId` (users.js 206–253):
`user.priceAlerts.id(alertId)` — 404 when absent; otherwise the optional
`targetPrice` and `isActive` fields overwrite the subdocument and the
user is saved with status 200. -/
def updateAlert (u : UserDoc) (alertId : ℕ) (targetPrice : Option ℚ)
    (isActive : Option Bool) : ℕ × UserDoc :=
  match u.priceAlerts.find? (fun a => a.id == alertId) with
  | none => (404, u)
  | some _ =>
      (200, { u with priceAlerts := u.priceAlerts.map (fun a =>
          if a.id == alertId then
            { a with
              targetPrice := targetPrice.getD a.targetPrice,
              isActive := isActive.getD a.isActive }
          else a) })

/-- `DELETE /api/users/favorites/:stationId` (users.js 78–98): filter,
save, respond 200 — no lookup, no 404 branch. -/
def deleteFavorite (u : UserDoc) (sid : ℕ) : ℕ × UserDoc :=
  (200, { u with favoriteStations := u.favoriteStations.filter (fun i => i != sid) })

/-- `POST /api/users/favorites` (users.js 27–73): 404 when the station
does not resolve, 400 when already a favorite, else push and 200. -/
def addFavorite (stations : List Station) (u : UserDoc) (sid : ℕ) :
    ℕ × UserDoc :=
  match findStation stations sid with
  | none => (404, u)
  | some _ =>
      if sid ∈ u.favoriteStations then (400, u)
      else (200, { u with favoriteStations := u.favoriteStations ++ [sid] })

/-- `POST /api/users/alerts` (users.js 118–177): 404 when the station does
not resolve; 400 when an alert for the same (station, fuel type) pair
already exists; otherwise push the new active alert (`newId` stands for
the generated subdocument id) and respond 201. -/
def createAlert (stations : List Station) (u : UserDoc) (sid : ℕ)
    (ft : FuelType) (targetPrice : ℚ) (newId : ℕ) : ℕ × UserDoc :=
  match findStation stations sid with
  | none => (404, u)
  | some _ =>
      if u.priceAlerts.any (fun a => a.stationId == sid && a.fuelType == ft) then
        (400, u)
      else
        (201, { u with priceAlerts :=
            u.priceAlerts ++ [⟨newId, sid, ft, targetPrice, true, none⟩] })

/-- `GET /api/stations/:id` (stations.js 54–71). -/
def getStationById (stations : List Station) (sid : ℕ) :
    ℕ × Option Station :=
  match findStation stations sid with
  | none => (404, none)
  | some s => (200, some s)

/-- The `fuelTypes` request body of `PUT /api/stations/:id`: an optional
new price per fuel key. -/
structure FuelPricesReq where
  gasoline95 : Option ℚ
  gasoline98 : Option ℚ
  diesel : Option ℚ
deriving Repr, DecidableEq

/-- One fuel slot under the update route (stations.js 124–133): a supplied
truthy price replaces the slot wholesale with a fresh `lastUpdated`;
otherwise the stored slot is untouched. -/
def applyFuelReq (now : ℤ) (req : Option ℚ) (cur : Option Fuel) :
    Option Fuel :=
  match req with
  | some p => if p ≠ 0 then some ⟨p, now⟩ else cur
  | none => cur

/-- `PUT /api/stations/:id` (stations.js 112–148): 404 when the station is
absent; otherwise merge the supplied fuel prices — with no floor check of
any kind — stamp `lastScraped`, save, respond 200. -/
def updateStation (stations : List Station) (sid : ℕ)
    (req : Option FuelPricesReq) (now : ℤ) : ℕ × List Station :=
  match findStation stations sid with
  | none => (404, stations)
  | some _ =>
      (200, stations.map (fun s =>
        if s.id == sid then
          { s with
            fuelTypes :=
              match req with
              | none => s.fuelTypes
              | some r =>
                  ⟨applyFuelReq now r.gasoline95 s.fuelTypes.gasoline95,
                   applyFuelReq now r.gasoline98 s.fuelTypes.gasoline98,
                   applyFuelReq now r.diesel s.fuelTypes.diesel⟩,
            lastScraped := now }
        else s))

/-- **C6.** The update endpoint enforces no price floor: updating the
seeded station with `fuelTypes.gasoline95.price = 1.0` persists the price
1.0 — strictly below the 6.0 gasoline95 floor — responds 200, and stamps
that fuel's `lastUpdated` and the station's `lastScraped` with the request
time. -/
theorem updateStation_bypasses_floor :
    updateStation [demoStation] 0 (some ⟨some 1, none, none⟩) 99 =
      (200, [{ demoStation with
                 fuelTypes := ⟨some ⟨1, 99⟩, demoStation.fuelTypes.gasoline98,
                               demoStation.fuelTypes.diesel⟩,
                 lastScraped := 99 }]) ∧
    (1 : ℚ) < 6 :=
  ⟨by rfl, by norm_num⟩

/-- The user of the route scenarios: one favorite (station 0) and one
alert (subdocument id 1, on station 1). -/
def demoUserDoc : UserDoc :=
  { email := "u@example.com"
    favoriteStations := [0]
    priceAlerts := [⟨1, 1, FuelType.diesel, 63/10, true, none⟩] }

/-- Counterexample to C5 as stated: deleting price alert id 2, which
matches no alert of the user, responds 200 with the alert list unchanged —
not 404. -/
theorem delete_missing_alert_counterexample :
    (deleteAlert demoUserDoc 2).1 ≠ 404 ∧
    deleteAlert demoUserDoc 2 = (200, demoUserDoc) :=
  ⟨by decide, by rfl⟩

/-- **C5 (amended).** Operations that look their entity up respond 404
when it is absent — `GET /api/stations/:id`, `PUT /api/stations/:id`,
`POST /api/users/favorites` and `POST /api/users/alerts` for a missing
station, `PUT /api/users/alerts/:alertId` for a missing alert — but the
DELETE endpoints perform no lookup: deleting a price alert whose id
matches none of the user's alerts, or removing a favorite that is not in
the list, responds 200 with the document unchanged. -/
theorem missing_entity_responses (stations : List Station) (sid : ℕ)
    (u : UserDoc) (alertId newId : ℕ) (tp : Option ℚ) (ia : Option Bool)
    (req : Option FuelPricesReq) (now : ℤ) (ft : FuelType) (price : ℚ)
    (hs : findStation stations sid = none)
    (ha : ∀ a ∈ u.priceAlerts, a.id ≠ alertId)
    (hf : sid ∉ u.favoriteStations) :
    getStationById stations sid = (404, none) ∧
    updateStation stations sid req now = (404, stations) ∧
    addFavorite stations u sid = (404, u) ∧
    createAlert stations u sid ft price newId = (404, u) ∧
    updateAlert u alertId tp ia = (404, u) ∧
    deleteAlert u alertId = (200, u) ∧
    deleteFavorite u sid = (200, u) := by
  refine ⟨?_, ?_, ?_, ?_, ?_, ?_, ?_⟩
  · simp [getStationById, hs]
  · simp [updateStation, hs]
  · simp [addFavorite, hs]
  · simp [createAlert, hs]
  · have hnone : u.priceAlerts.find? (fun a => a.id == alertId) = none :=
      List.find?_eq_none.mpr (fun a hmem => by simp [ha a hmem])
    simp [updateAlert, hnone]
  · have hkeep : u.priceAlerts.filter (fun a => a.id != alertId) = u.priceAlerts :=
      List.filter_eq_self.mpr (fun a hmem => by simp [ha a hmem])
    simp [deleteAlert, hkeep]
  · have hkeep : u.favoriteStations.filter (fun i => i != sid) = u.favoriteStations :=
      List.filter_eq_self.mpr (fun i hmem => by
        simp
        intro hcontra
        exact hf (hcontra ▸ hmem))
    simp [deleteFavorite, hkeep]

/-- Witness for C5 (amended): station id 7 is absent from the seeded
store, alert id 2 and favorite 7 are absent from the scenario user. -/
theorem missing_entity_responses_witness :
    updateAlert demoUserDoc 2 none none = (404, demoUserDoc) ∧
    deleteAlert demoUserDoc 2 = (200, demoUserDoc) ∧
    getStationById [demoStation] 7 = (404, none) := by
  have h := missing_entity_responses [demoStation] 7 demoUserDoc 2 5
      none none none 0 FuelType.diesel 6 (by rfl)
      (by intro a hmem; simp [demoUserDoc] at hmem; simp [hmem])
      (by simp [demoUserDoc])
  exact ⟨h.2.2.2.2.1, h.2.2.2.2.2.1, h.1⟩

/-- **C7.** `POST /api/users/alerts` with a stationId that resolves to no
station responds 404 and the user's document — in particular the alert
list — is returned unchanged. -/
theorem create_alert_missing_station (stations : List Station) (u : UserDoc)
    (sid : ℕ) (ft : FuelType) (tp : ℚ) (newId : ℕ)
    (hs : findStation stations sid = none) :
    createAlert stations u sid ft tp newId = (404, u) := by
  simp [createAlert, hs]

/-- Witness for C7: creating an alert for absent station id 7 against the
seeded store leaves the scenario user untouched with status 404. -/
theorem create_alert_missing_station_witness :
    createAlert [demoStation] demoUserDoc 7 FuelType.diesel (63/10) 9 =
      (404, demoUserDoc) :=
  create_alert_missing_station [demoStation] demoUserDoc 7 FuelType.diesel
    (63/10) 9 (by rfl)
